import Mathlib

/-!
# Verification of the e-commerce monitoring-lab service mesh

Shallow embedding, in Lean 4, of the domain logic of the three Go service
nodes (user-service, product-service, order-service) and of the workload
generator of the monitoring-lab repository, together with proofs of the
spec's testable properties.

Conventions:
* Go `int` is embedded as `Int`; where an arithmetic result is stored back
  into a Go `int` field we apply `wrap64`, 64-bit two's-complement
  wraparound, since Go `int` is 64 bits wide on the target platforms.
* Go `float64` money amounts (product prices, order totals) are embedded
  exactly, as integer cents (the source's decimal dollar literals scaled by
  100); the claims under study concern the summation algorithm, not IEEE-754
  rounding.
* HTTP handlers are embedded as pure functions from their decoded request
  plus the relevant in-memory table(s) to a status code, a response value,
  the updated table(s), and (where a claim needs them) the list of emitted
  log records or outbound calls.
* Wall-clock timestamps, randomized latency sleeps and the OTLP exporter are
  outside the claims and are not modelled; probabilistic failure draws are
  modelled as explicit boolean parameters.
-/

/-- 64-bit two's-complement wraparound: what a Go `int` (64-bit) stores
after an arithmetic operation. -/
def wrap64 (n : Int) : Int := (n + 2 ^ 63) % 2 ^ 64 - 2 ^ 63

/-! ## Product-service (`part_001`) data model and inventory handlers -/

/-- `Product` from product-service: `ID`, `Name`, `Description`, `Price`,
`Category`, `Stock`, `ImageURL`; `price` in cents (source `float64` dollars
scaled by 100). -/
structure Product where
  id : Int
  name : String
  description : String
  price : Int
  category : String
  stock : Int
  imageURL : String
deriving DecidableEq, Repr

/-- The seeded `products` table of product-service (part_001 lines 43-52);
prices in cents (1299.99 dollars = 129999 cents, etc.). -/
def initialProducts : List Product :=
  [ ⟨1, "Laptop Gaming", "High-performance gaming laptop", 129999, "Electronics", 15, "https://example.com/laptop.jpg"⟩
  , ⟨2, "Smartphone Pro", "Latest smartphone with AI camera", 89999, "Electronics", 8, "https://example.com/phone.jpg"⟩
  , ⟨3, "Running Shoes", "Professional running shoes", 15999, "Sports", 25, "https://example.com/shoes.jpg"⟩
  , ⟨4, "Coffee Maker", "Automatic espresso machine", 29999, "Home", 12, "https://example.com/coffee.jpg"⟩
  , ⟨5, "Wireless Headphones", "Noise-cancelling headphones", 19999, "Electronics", 20, "https://example.com/headphones.jpg"⟩
  , ⟨6, "Yoga Mat", "Premium yoga mat", 4999, "Sports", 30, "https://example.com/yoga.jpg"⟩
  , ⟨7, "Smart Watch", "Fitness tracking smartwatch", 24999, "Electronics", 5, "https://example.com/watch.jpg"⟩
  , ⟨8, "Backpack", "Travel backpack", 7999, "Travel", 18, "https://example.com/backpack.jpg"⟩ ]

/-- The `for _, product := range products { if product.ID == productID ... }`
first-match scan shared by `getProductHandler`, `getInventoryHandler`, etc. -/
def findProduct : List Product → Int → Option Product
  | [], _ => none
  | p :: rest, pid => if p.id = pid then some p else findProduct rest pid

/-- `reserveInventoryHandler` (part_001 lines 428-508), after the two binding
checks: scan for the first product with the requested id; `409` and no
mutation when `Stock < Quantity`, otherwise `200` and
`products[i].Stock -= request.Quantity`; `404` when no product matches.
Returns (status, updated products table). -/
def reserveInventoryHandler (q pid : Int) : List Product → Nat × List Product
  | [] => (404, [])
  | p :: rest =>
    if p.id = pid then
      if p.stock < q then (409, p :: rest)
      else (200, { p with stock := wrap64 (p.stock - q) } :: rest)
    else
      let r := reserveInventoryHandler q pid rest
      (r.1, p :: r.2)

/-- `releaseInventoryHandler` (part_001 lines 510-570), after the two binding
checks: scan for the first product with the requested id; unconditionally
`products[i].Stock += request.Quantity` and `200`; `404` when no product
matches. Returns (status, updated products table). -/
def releaseInventoryHandler (q pid : Int) : List Product → Nat × List Product
  | [] => (404, [])
  | p :: rest =>
    if p.id = pid then
      (200, { p with stock := wrap64 (p.stock + q) } :: rest)
    else
      let r := releaseInventoryHandler q pid rest
      (r.1, p :: r.2)

/-! ## User-service (`src/services/user-service/main.go`) -/

/-- `User` from user-service: `ID`, `Email`, `Name`, `Password`. -/
structure User where
  id : Int
  email : String
  name : String
  password : String
deriving DecidableEq, Repr

/-- The seeded `users` table of user-service (main.go lines 53-57). -/
def initialUsers : List User :=
  [ ⟨1, "john@example.com", "John Doe", "password123"⟩
  , ⟨2, "jane@example.com", "Jane Smith", "password123"⟩
  , ⟨3, "alice@example.com", "Alice Johnson", "password123"⟩ ]

/-- Structured-log levels used by the services (logrus `Error`/`Warn`/`Info`). -/
inductive LogLevel
  | error
  | warn
  | info
deriving DecidableEq, Repr

/-- One structured log line: level, message, and the `logrus.Fields` key/value
pairs (timestamps are runtime-only and not modelled). -/
structure LogRecord where
  level : LogLevel
  msg : String
  fields : List (String × String)
deriving DecidableEq, Repr

/-- Decoded body of `POST /auth/login`. -/
structure LoginRequest where
  email : String
  password : String
deriving DecidableEq, Repr

/-- The credential scan of `loginHandler` (main.go lines 205-211):
first user with `u.Email == req.Email && u.Password == req.Password`. -/
def findCredentials : List User → String → String → Option User
  | [], _, _ => none
  | u :: rest, e, pw =>
    if u.email = e ∧ u.password = pw then some u else findCredentials rest e pw

/-- Status code plus emitted trace-correlated log lines of one handler run. -/
structure HandlerResult where
  status : Nat
  logs : List LogRecord
deriving DecidableEq, Repr

/-- `loginHandler` (main.go lines 166-263) after a successful JSON bind.
`dbFail` is the `rand.Intn(100) < 15` simulated database-failure draw;
`tid` is the active span's trace id, stamped on every handler log line.
HS256 signing of the JWT cannot fail for a string secret, so the
`token_generation_failed` branch (lines 235-245) is unreachable and the
match path responds 200. -/
def loginHandler (usrs : List User) (req : LoginRequest) (dbFail : Bool)
    (tid : String) : HandlerResult :=
  if dbFail then
    ⟨500, [⟨.error, "Database connection failed during login",
      [("service", "user-service"), ("endpoint", "/auth/login"),
       ("email", req.email), ("error", "database_connection_failed"),
       ("trace_id", tid)]⟩]⟩
  else
    match findCredentials usrs req.email req.password with
    | none =>
      ⟨401, [⟨.warn, "Invalid login attempt",
        [("service", "user-service"), ("endpoint", "/auth/login"),
         ("email", req.email), ("error", "invalid_credentials"),
         ("trace_id", tid)]⟩]⟩
    | some u =>
      ⟨200, [⟨.info, "User logged in successfully",
        [("service", "user-service"), ("endpoint", "/auth/login"),
         ("user_id", toString u.id), ("email", u.email),
         ("trace_id", tid)]⟩]⟩

/-- The access log emitted by `loggingMiddleware` (main.go lines 133-147)
after the handler responds: info level, no `trace_id`, no `error` field
(latency / client-ip / user-agent fields are runtime-only values). -/
def httpRequestLog (method path : String) (status : Nat) : LogRecord :=
  ⟨.info, "HTTP request",
    [("service", "user-service"), ("method", method), ("path", path),
     ("status", toString status)]⟩

/-- All log lines emitted for one `POST /auth/login` request: the handler's
lines followed by the middleware access line. -/
def loginRequestLogs (usrs : List User) (req : LoginRequest) (dbFail : Bool)
    (tid : String) : List LogRecord :=
  (loginHandler usrs req dbFail tid).logs ++
    [httpRequestLog "POST" "/auth/login" (loginHandler usrs req dbFail tid).status]

/-- A log line at level `lv` that carries `error=invalid_credentials` and a
`trace_id` field (i.e. is trace-correlated). -/
def isCorrelatedCredLine (lv : LogLevel) (r : LogRecord) : Bool :=
  r.level == lv && r.fields.contains ("error", "invalid_credentials") &&
    r.fields.any (fun f => f.1 == "trace_id")

/-- `getUserHandler`'s response payload: on a hit the `User` record is
serialized (after its password is cleared); otherwise a not-found error. -/
inductive GetUserResponse
  | ok (u : User)
  | notFound
deriving DecidableEq, Repr

/-- The `for _, user := range users { if user.ID == userID ... }` first-match
scan of `getUserHandler` (main.go lines 342-355). -/
def findUserById : List User → Int → Option User
  | [], _ => none
  | u :: rest, uid => if u.id = uid then some u else findUserById rest uid

/-- `getUserHandler` (main.go lines 325-367) after a numeric id parsed:
find the user by id; on a hit, `user.Password = ""` before responding 200
(the range variable is a copy, so the table itself is not mutated);
otherwise 404. -/
def getUserHandler (usrs : List User) (uid : Int) : Nat × GetUserResponse :=
  match findUserById usrs uid with
  | some u => (200, .ok { u with password := "" })
  | none => (404, .notFound)

/-- Spec-side relation for the C10 hyperproperty: the two user tables agree
entry-by-entry on id, email and name, and on password for every entry whose
id is not the requested one. -/
def differOnlyPwd (uid : Int) : List User → List User → Bool
  | [], [] => true
  | a :: t1, b :: t2 =>
    a.id == b.id && a.email == b.email && a.name == b.name &&
      (a.id == uid || a.password == b.password) && differOnlyPwd uid t1 t2
  | _, _ => false

/-! ## Order-service (`part_003`) -/

/-- One line item of `CreateOrderRequest` (part_003 lines 53-59). -/
structure CartItem where
  productId : Int
  quantity : Int
deriving DecidableEq, Repr

/-- Decoded body of `POST /orders` (part_003 lines 53-59). -/
structure CreateOrderRequest where
  userId : Int
  items : List CartItem
deriving DecidableEq, Repr

/-- `OrderItem` (part_003 lines 46-51); price in cents. -/
structure OrderItem where
  productId : Int
  quantity : Int
  price : Int
  name : String
deriving DecidableEq, Repr

/-- `Order` (part_003 lines 34-44); total in cents. The `CreatedAt` /
`UpdatedAt` wall-clock timestamps are runtime-only and not modelled;
`PaymentID` / `ShippingID` are the empty string at creation. -/
structure Order where
  id : Int
  userId : Int
  items : List OrderItem
  status : String
  total : Int
  paymentId : String
  shippingId : String
deriving DecidableEq, Repr

/-- The outbound HTTP calls `createOrderHandler` can make to product-service:
`lookup` is `getProductDetails` (GET `/products/:id`, part_003 lines 628-665),
`reserve` is `reserveInventory` (POST `/inventory/:id/reserve` with quantity
and order id, part_003 lines 667-698), `release` would be a POST
`/inventory/:id/release` compensation call — the handler never issues one.
`ok` records whether the peer answered 200. -/
inductive OutboundCall
  | lookup (productId : Int) (ok : Bool)
  | reserve (productId quantity orderId : Int) (ok : Bool)
  | release (productId quantity : Int)
deriving DecidableEq, Repr

/-- Which response branch of `createOrderHandler` fired: the `Invalid user`
400 (line 270), the `Product %d not found` 400 (line 291), the
`Insufficient stock for product %d` 409 (line 308), or the 201 (line 352). -/
inductive CreateOutcome
  | userInvalid
  | productNotFound (productId : Int)
  | reserveFailed (productId : Int)
  | created
deriving DecidableEq, Repr

/-- Outcome of the per-item loop of `createOrderHandler`. -/
inductive LoopOutcome
  | ok (items : List OrderItem) (total : Int)
  | productNotFound (productId : Int)
  | reserveFailed (productId : Int)
deriving DecidableEq, Repr

/-- Full effect of one `POST /orders` request: response status, the branch
taken, the outbound calls issued, product-service's products table after the
request, order-service's orders table and `orderCounter` after the request. -/
structure CreateOrderResult where
  status : Nat
  outcome : CreateOutcome
  calls : List OutboundCall
  products : List Product
  orders : List Order
  counter : Int
deriving DecidableEq, Repr

/-- The `for _, item := range req.Items` loop of `createOrderHandler`
(part_003 lines 278-320), composed with the product-service handlers it
calls over HTTP (the network is modelled as reliable): for each item,
`getProductDetails` (a `findProduct` scan, 404 ⇒ abort with the
product-not-found branch), then `reserveInventory` (the
`reserveInventoryHandler` transition on the products table; any non-200
answer ⇒ abort with the reservation-failed branch); on success accumulate
the order item and `total += product.Price * float64(item.Quantity)`. -/
def orderItemsLoop (ctr : Int) (acc : List OrderItem) (total : Int)
    (calls : List OutboundCall) :
    List Product → List CartItem → List OutboundCall × List Product × LoopOutcome
  | ps, [] => (calls, ps, .ok acc total)
  | ps, it :: rest =>
    match findProduct ps it.productId with
    | none => (calls ++ [.lookup it.productId false], ps, .productNotFound it.productId)
    | some prod =>
      let res := reserveInventoryHandler it.quantity it.productId ps
      let rok := res.1 == 200
      let calls1 := calls ++
        [.lookup it.productId true, .reserve it.productId it.quantity ctr rok]
      if rok then
        orderItemsLoop ctr (acc ++ [⟨it.productId, it.quantity, prod.price, prod.name⟩])
          (total + prod.price * it.quantity) calls1 res.2 rest
      else
        (calls1, res.2, .reserveFailed it.productId)

/-- `createOrderHandler` (part_003 lines 241-353) after a successful JSON
bind. `userValid` is the result of the preceding `validateUser` call to
user-service (lines 259-272; that call goes to user-service, not to the
catalog, so it is not an `OutboundCall` here); `ps` is product-service's
table, `os` / `ctr` are the global `orders` / `orderCounter`. On success the
order is appended with status `"pending"` and `orderCounter` incremented. -/
def createOrderHandler (userValid : Bool) (req : CreateOrderRequest)
    (ps : List Product) (os : List Order) (ctr : Int) : CreateOrderResult :=
  if !userValid then
    ⟨400, .userInvalid, [], ps, os, ctr⟩
  else
    match orderItemsLoop ctr [] 0 [] ps req.items with
    | (calls, ps', .productNotFound pid) => ⟨400, .productNotFound pid, calls, ps', os, ctr⟩
    | (calls, ps', .reserveFailed pid) => ⟨409, .reserveFailed pid, calls, ps', os, ctr⟩
    | (calls, ps', .ok items total) =>
      ⟨201, .created, calls, ps',
        os ++ [⟨ctr, req.userId, items, "pending", total, "", ""⟩], ctr + 1⟩

/-- Catalog price-lookup call? -/
def isLookup : OutboundCall → Bool
  | .lookup _ _ => true
  | _ => false

/-- Inventory-reservation call? -/
def isReserve : OutboundCall → Bool
  | .reserve _ _ _ _ => true
  | _ => false

/-- Inventory-release (compensation) call? -/
def isRelease : OutboundCall → Bool
  | .release _ _ => true
  | _ => false

/-- Replays a call trace against product-service: each reserve call applies
the `reserveInventoryHandler` transition (a failed reserve leaves the table
unchanged, which the handler transition also does); lookups and releases
read or never occur. Used to state that the products table after a
create-order request is exactly the table produced by the reservations the
handler performed — nothing was compensated/released. -/
def replayCalls : List Product → List OutboundCall → List Product
  | ps, [] => ps
  | ps, .reserve pid q _ _ :: rest => replayCalls (reserveInventoryHandler q pid ps).2 rest
  | ps, .lookup _ _ :: rest => replayCalls ps rest
  | ps, .release _ _ :: rest => replayCalls ps rest

/-- Spec-side catalog price of a product id (0 if absent), in cents. -/
def priceOf (ps : List Product) (pid : Int) : Int :=
  ((findProduct ps pid).map Product.price).getD 0

/-- Spec-side order total: `Σ (catalog price × requested quantity)` over the
request's items, in cents. -/
def cartTotal (ps : List Product) : List CartItem → Int
  | [] => 0
  | it :: rest => priceOf ps it.productId * it.quantity + cartTotal ps rest

/-! ## Span lifecycle sites (C6)

Every `tracer.Start` site in the repository, with how its matching
`span.End()` is placed in the source. `deferred` means the registered
`defer span.End()` (Go runs deferred calls exactly once on every exit from
the enclosing function, including early returns and panics — the
guaranteed-release pattern); `explicitTail` means a plain `span.End()` at
the end of the code block. `pathsSkippingEnd` / `pathsEndingTwice` count
the exit paths of the function (for handlers/helpers) or of one loop-body
iteration (for scenario loops) on which `End` is not reached / is reached
more than once: read off the source, every site has zero of both — the
seven scenario-loop bodies have no early `continue`/`return` before their
tail `span.End()`. -/

/-- How a span-start site closes its span. -/
inductive EndMode
  | deferred
  | explicitTail
deriving DecidableEq, Repr

/-- What kind of code starts the span. -/
inductive SiteKind
  | handler
  | outboundHelper
  | scenarioLoop
deriving DecidableEq, Repr

/-- One `tracer.Start` site. -/
structure SpanSite where
  file : String
  fn : String
  op : String
  kind : SiteKind
  mode : EndMode
  pathsSkippingEnd : Nat
  pathsEndingTwice : Nat
deriving DecidableEq, Repr

/-- All 69 `tracer.Start` sites of the repository: user-service (10),
product-service / part_001 (12), order-service / part_003 (15), and the
workload generator / part_002 (7 scenario loops + 25 outbound helpers). -/
def spanSites : List SpanSite :=
  [ ⟨"services/user-service/main.go", "healthHandler", "health_check", .handler, .deferred, 0, 0⟩
  , ⟨"services/user-service/main.go", "loginHandler", "user_login", .handler, .deferred, 0, 0⟩
  , ⟨"services/user-service/main.go", "registerHandler", "user_register", .handler, .deferred, 0, 0⟩
  , ⟨"services/user-service/main.go", "getUserHandler", "get_user", .handler, .deferred, 0, 0⟩
  , ⟨"services/user-service/main.go", "getUserProfileHandler", "get_user_profile", .handler, .deferred, 0, 0⟩
  , ⟨"services/user-service/main.go", "getUserFavoritesHandler", "get_user_favorites", .handler, .deferred, 0, 0⟩
  , ⟨"services/user-service/main.go", "getUserFavoritesHandler", "call_product_service", .outboundHelper, .deferred, 0, 0⟩
  , ⟨"services/user-service/main.go", "updateUserPreferencesHandler", "update_user_preferences", .handler, .deferred, 0, 0⟩
  , ⟨"services/user-service/main.go", "searchUsersHandler", "search_users", .handler, .deferred, 0, 0⟩
  , ⟨"services/user-service/main.go", "refreshTokenHandler", "refresh_token", .handler, .deferred, 0, 0⟩
  , ⟨"part_001", "healthHandler", "health_check", .handler, .deferred, 0, 0⟩
  , ⟨"part_001", "getProductsHandler", "get_products", .handler, .deferred, 0, 0⟩
  , ⟨"part_001", "getProductHandler", "get_product", .handler, .deferred, 0, 0⟩
  , ⟨"part_001", "searchProductsHandler", "search_products", .handler, .deferred, 0, 0⟩
  , ⟨"part_001", "getFavoritesHandler", "get_user_favorites", .handler, .deferred, 0, 0⟩
  , ⟨"part_001", "getInventoryHandler", "get_inventory", .handler, .deferred, 0, 0⟩
  , ⟨"part_001", "reserveInventoryHandler", "reserve_inventory", .handler, .deferred, 0, 0⟩
  , ⟨"part_001", "releaseInventoryHandler", "release_inventory", .handler, .deferred, 0, 0⟩
  , ⟨"part_001", "getTrendingProductsHandler", "get_trending_products", .handler, .deferred, 0, 0⟩
  , ⟨"part_001", "recordProductViewHandler", "record_product_view", .handler, .deferred, 0, 0⟩
  , ⟨"part_001", "getProductsByCategoryHandler", "get_products_by_category", .handler, .deferred, 0, 0⟩
  , ⟨"part_001", "updateProductPriceHandler", "update_product_price", .handler, .deferred, 0, 0⟩
  , ⟨"part_003", "healthHandler", "health_check", .handler, .deferred, 0, 0⟩
  , ⟨"part_003", "getOrdersHandler", "get_orders", .handler, .deferred, 0, 0⟩
  , ⟨"part_003", "getOrderHandler", "get_order", .handler, .deferred, 0, 0⟩
  , ⟨"part_003", "createOrderHandler", "create_order", .handler, .deferred, 0, 0⟩
  , ⟨"part_003", "updateOrderStatusHandler", "update_order_status", .handler, .deferred, 0, 0⟩
  , ⟨"part_003", "getUserOrdersHandler", "get_user_orders", .handler, .deferred, 0, 0⟩
  , ⟨"part_003", "processPaymentHandler", "process_payment", .handler, .deferred, 0, 0⟩
  , ⟨"part_003", "getPaymentHandler", "get_payment", .handler, .deferred, 0, 0⟩
  , ⟨"part_003", "cancelOrderHandler", "cancel_order", .handler, .deferred, 0, 0⟩
  , ⟨"part_003", "getOrderTrackingHandler", "get_order_tracking", .handler, .deferred, 0, 0⟩
  , ⟨"part_003", "processRefundHandler", "process_refund", .handler, .deferred, 0, 0⟩
  , ⟨"part_003", "getOrderAnalyticsHandler", "get_order_analytics", .handler, .deferred, 0, 0⟩
  , ⟨"part_003", "validateUser", "validate_user_call", .outboundHelper, .deferred, 0, 0⟩
  , ⟨"part_003", "getProductDetails", "get_product_details_call", .outboundHelper, .deferred, 0, 0⟩
  , ⟨"part_003", "reserveInventory", "reserve_inventory_call", .outboundHelper, .deferred, 0, 0⟩
  , ⟨"part_002", "generateUserTraffic", "user_workflow", .scenarioLoop, .explicitTail, 0, 0⟩
  , ⟨"part_002", "generateProductTraffic", "product_workflow", .scenarioLoop, .explicitTail, 0, 0⟩
  , ⟨"part_002", "generateOrderTraffic", "order_workflow", .scenarioLoop, .explicitTail, 0, 0⟩
  , ⟨"part_002", "generateHealthChecks", "health_checks", .scenarioLoop, .explicitTail, 0, 0⟩
  , ⟨"part_002", "generateAdvancedUserTraffic", "advanced_user_traffic", .scenarioLoop, .explicitTail, 0, 0⟩
  , ⟨"part_002", "generateAdvancedProductTraffic", "advanced_product_traffic", .scenarioLoop, .explicitTail, 0, 0⟩
  , ⟨"part_002", "generateAdvancedOrderTraffic", "advanced_order_traffic", .scenarioLoop, .explicitTail, 0, 0⟩
  , ⟨"part_002", "performLogin", "login_request", .outboundHelper, .deferred, 0, 0⟩
  , ⟨"part_002", "performRegistration", "registration_request", .outboundHelper, .deferred, 0, 0⟩
  , ⟨"part_002", "getUserProfile", "get_user_profile", .outboundHelper, .deferred, 0, 0⟩
  , ⟨"part_002", "getUserFavorites", "get_user_favorites", .outboundHelper, .deferred, 0, 0⟩
  , ⟨"part_002", "getAllProducts", "get_all_products", .outboundHelper, .deferred, 0, 0⟩
  , ⟨"part_002", "searchProducts", "search_products", .outboundHelper, .deferred, 0, 0⟩
  , ⟨"part_002", "getProduct", "get_product", .outboundHelper, .deferred, 0, 0⟩
  , ⟨"part_002", "getInventory", "get_inventory", .outboundHelper, .deferred, 0, 0⟩
  , ⟨"part_002", "createOrder", "create_order", .outboundHelper, .deferred, 0, 0⟩
  , ⟨"part_002", "processPayment", "process_payment", .outboundHelper, .deferred, 0, 0⟩
  , ⟨"part_002", "getOrder", "get_order", .outboundHelper, .deferred, 0, 0⟩
  , ⟨"part_002", "updateOrderStatus", "update_order_status", .outboundHelper, .deferred, 0, 0⟩
  , ⟨"part_002", "getUserOrders", "get_user_orders", .outboundHelper, .deferred, 0, 0⟩
  , ⟨"part_002", "getAllOrders", "get_all_orders", .outboundHelper, .deferred, 0, 0⟩
  , ⟨"part_002", "updateUserPreferences", "update_user_preferences", .outboundHelper, .deferred, 0, 0⟩
  , ⟨"part_002", "searchUsers", "search_users", .outboundHelper, .deferred, 0, 0⟩
  , ⟨"part_002", "refreshUserToken", "refresh_user_token", .outboundHelper, .deferred, 0, 0⟩
  , ⟨"part_002", "getTrendingProducts", "get_trending_products", .outboundHelper, .deferred, 0, 0⟩
  , ⟨"part_002", "recordProductView", "record_product_view", .outboundHelper, .deferred, 0, 0⟩
  , ⟨"part_002", "getProductsByCategory", "get_products_by_category", .outboundHelper, .deferred, 0, 0⟩
  , ⟨"part_002", "updateProductPrice", "update_product_price", .outboundHelper, .deferred, 0, 0⟩
  , ⟨"part_002", "cancelOrder", "cancel_order", .outboundHelper, .deferred, 0, 0⟩
  , ⟨"part_002", "getOrderTracking", "get_order_tracking", .outboundHelper, .deferred, 0, 0⟩
  , ⟨"part_002", "processRefund", "process_refund", .outboundHelper, .deferred, 0, 0⟩
  , ⟨"part_002", "getOrderAnalytics", "get_order_analytics", .outboundHelper, .deferred, 0, 0⟩ ]

/-! ## Workload-generator startup ordering (C7) -/

/-- An observable event of the workload generator: one poll of a Service
Node's health endpoint (`ok` = it answered HTTP 200), or one scenario
request issued by a scenario loop against service `svc`. -/
inductive GenEvent
  | healthPoll (svc : Nat) (ok : Bool)
  | scenarioReq (svc : Nat) (op : String)
deriving DecidableEq, Repr

/-- The inner `for { http.Get(service); ... break / sleep 5s }` retry loop of
`waitForServices` (part_002 lines 113-127) for one service: `health attempt`
tells whether the `attempt`-th poll got a 200 (an unreachable service or a
non-200 both mean "keep waiting"). The source loop is unbounded; `fuel`
bounds how many polls we unfold — `none` means the loop is still polling
(and the generator has not proceeded). -/
def waitForOne (health : Nat → Bool) (svc : Nat) : Nat → Nat → Option (List GenEvent)
  | _, 0 => none
  | attempt, fuel + 1 =>
    if health attempt then some [.healthPoll svc true]
    else (waitForOne health svc (attempt + 1) fuel).map (.healthPoll svc false :: ·)

/-- `waitForServices` (part_002 lines 106-130): polls user-service (0), then
product-service (1), then order-service (2), each until it answers 200. -/
def waitForServices (health : Nat → Nat → Bool) (fuel : Nat) :
    Option (List GenEvent) := do
  let e0 ← waitForOne (health 0) 0 0 fuel
  let e1 ← waitForOne (health 1) 1 0 fuel
  let e2 ← waitForOne (health 2) 2 0 fuel
  pure (e0 ++ e1 ++ e2)

/-- `main` of the workload generator (part_002 lines 45-73): after the
tracer is up it calls `waitForServices()` and only then starts the scenario
goroutines; `traffic` is the stream of events they go on to emit. `none`
means startup is still blocked in `waitForServices` and no scenario loop has
begun. -/
def generatorMain (health : Nat → Nat → Bool) (fuel : Nat)
    (traffic : List GenEvent) : Option (List GenEvent) :=
  (waitForServices health fuel).map (· ++ traffic)

/-! ## Domain-table mutation sites (C8) -/

/-- One source line that mutates an in-memory domain table, and whether the
mutation is performed while holding a lock dedicated to that collection. -/
structure MutationSite where
  service : String
  fn : String
  table : String
  line : Nat
  lockHeld : Bool
deriving DecidableEq, Repr

/-- Every mutation of the global `users`, `products` and `orders` tables
(and the `orderCounter`) in the three services. No file in the repository
imports `sync` or declares any mutex, so `lockHeld` is `false` at every
site: user-service main.go line 305 (`users = append(users, newUser)`),
part_001 lines 478 / 541 / 757 (`products[i].Stock -= ...`,
`products[i].Stock += ...`, `products[i].Price = ...`), part_003 lines
333-334 (`orders = append(orders, order)`, `orderCounter++`), 386-387,
526-528 and 734-735 (in-place `orders[i]` / `order.*` updates). -/
def mutationSites : List MutationSite :=
  [ ⟨"user-service", "registerHandler", "users", 305, false⟩
  , ⟨"product-service", "reserveInventoryHandler", "products", 478, false⟩
  , ⟨"product-service", "releaseInventoryHandler", "products", 541, false⟩
  , ⟨"product-service", "updateProductPriceHandler", "products", 757, false⟩
  , ⟨"order-service", "createOrderHandler", "orders", 333, false⟩
  , ⟨"order-service", "createOrderHandler", "orderCounter", 334, false⟩
  , ⟨"order-service", "updateOrderStatusHandler", "orders", 386, false⟩
  , ⟨"order-service", "processPaymentHandler", "orders", 526, false⟩
  , ⟨"order-service", "cancelOrderHandler", "orders", 734, false⟩ ]

/-!
# Theorems
-/

theorem wrap64_eq_self {n : Int} (h1 : -(2 ^ 63) ≤ n) (h2 : n < 2 ^ 63) :
    wrap64 n = n := by
  unfold wrap64
  have : (0 : Int) ≤ n + 2 ^ 63 := by linarith
  have : n + 2 ^ 63 < 2 ^ 64 := by linarith
  rw [Int.emod_eq_of_lt (by linarith) (by linarith)]
  ring

/-- C3: for every reserve-inventory request on an existing product whose
requested quantity exceeds the product's current stock, product-service
responds HTTP 409 and the products table (every field of every product) is
unchanged. -/
theorem reserve_insufficient_conflict (ps : List Product) (pid q : Int) (p : Product)
    (hfind : findProduct ps pid = some p) (hq : p.stock < q) :
    (reserveInventoryHandler q pid ps).1 = 409 ∧
      (reserveInventoryHandler q pid ps).2 = ps := by
  induction ps with
  | nil => simp [findProduct] at hfind
  | cons hd tl ih =>
    by_cases hid : hd.id = pid
    · simp [findProduct, hid] at hfind
      subst hfind
      simp [reserveInventoryHandler, hid, hq]
    · simp [findProduct, hid] at hfind
      have := ih hfind
      simp [reserveInventoryHandler, hid, this.1, this.2]

/-- Witness for C3: product 7 ("Smart Watch") has stock 5; requesting 6
yields 409 and leaves the seeded table unchanged. -/
theorem reserve_insufficient_conflict_witness :
    (reserveInventoryHandler 6 7 initialProducts).1 = 409 ∧
      (reserveInventoryHandler 6 7 initialProducts).2 = initialProducts :=
  reserve_insufficient_conflict initialProducts 7 6
    ⟨7, "Smart Watch", "Fitness tracking smartwatch", 24999, "Electronics",
      5, "https://example.com/watch.jpg"⟩
    (by decide) (by decide)

/-- C9 (amended): for every release-inventory request on an existing product
(first matching entry `p`, preceded by non-matching entries `l1`),
product-service responds 200 and sets that product's stock to
`wrap64 (p.stock + q)` — equal to `p.stock + q` whenever the sum fits in a
signed 64-bit integer — for any int64 quantity `q`, including zero and
negative values, leaving every other product untouched and performing no
check that the quantity was ever reserved. -/
theorem release_adds_quantity (l1 l2 : List Product) (p : Product) (pid q : Int)
    (hl1 : ∀ x ∈ l1, x.id ≠ pid) (hp : p.id = pid) :
    releaseInventoryHandler q pid (l1 ++ p :: l2) =
      (200, l1 ++ { p with stock := wrap64 (p.stock + q) } :: l2) := by
  induction l1 with
  | nil => simp [releaseInventoryHandler, hp]
  | cons hd tl ih =>
    have hhd : hd.id ≠ pid := hl1 hd (by simp)
    have htl : ∀ x ∈ tl, x.id ≠ pid := fun x hx => hl1 x (by simp [hx])
    simp only [List.cons_append, releaseInventoryHandler, List.append_eq,
      if_neg hhd, ih htl]

/-- Witness for C9 (amended): releasing 10 units of product 1 (stock 15)
responds 200 and sets its stock to 25. -/
theorem release_adds_quantity_witness :
    releaseInventoryHandler 10 1
        ([] ++ ⟨1, "Laptop Gaming", "High-performance gaming laptop", 129999,
          "Electronics", 15, "https://example.com/laptop.jpg"⟩ :: initialProducts.tail) =
      (200, [] ++ ⟨1, "Laptop Gaming", "High-performance gaming laptop", 129999,
          "Electronics", wrap64 (15 + 10), "https://example.com/laptop.jpg"⟩ :: initialProducts.tail) :=
  release_adds_quantity [] initialProducts.tail
    ⟨1, "Laptop Gaming", "High-performance gaming laptop", 129999,
      "Electronics", 15, "https://example.com/laptop.jpg"⟩ 1 10
    (by simp) rfl

/-- Counterexample for C9 as stated: the stock is stored in a Go `int`
(64-bit), so "old stock plus the requested quantity" fails for arbitrarily
large values: releasing `2^63 - 1` units of product 1 (stock 15) responds
200 but wraps the stock to a negative number instead of `15 + (2^63 - 1)`. -/
theorem release_overflow_counterexample :
    (releaseInventoryHandler (2 ^ 63 - 1) 1 initialProducts).1 = 200 ∧
      (findProduct (releaseInventoryHandler (2 ^ 63 - 1) 1 initialProducts).2 1).map
          Product.stock ≠ some (15 + (2 ^ 63 - 1)) ∧
      (findProduct (releaseInventoryHandler (2 ^ 63 - 1) 1 initialProducts).2 1).map
          Product.stock = some (-9223372036854775794) := by
  decide

/-- C4 counterexample: a login with a non-existent email (no database-failure
draw) responds 401, but the one trace-correlated `error=invalid_credentials`
line is emitted at WARN level (main.go line 221), so the request emits zero
ERROR-level correlated lines with that field, not exactly one. -/
theorem login_error_level_counterexample :
    (loginHandler initialUsers ⟨"ghost@example.com", "password123"⟩ false "tid0").status
        = 401 ∧
      (loginRequestLogs initialUsers ⟨"ghost@example.com", "password123"⟩ false
          "tid0").countP (isCorrelatedCredLine .error) = 0 := by
  decide

/-- C4 (amended): for every well-formed login request whose email/password
pair matches no stored user, with no simulated database failure drawn,
user-service responds HTTP 401 and the request emits exactly one WARN-level
trace-correlated log line carrying `error=invalid_credentials` (and no
ERROR-level one). -/
theorem login_invalid_credentials_warn (usrs : List User) (req : LoginRequest)
    (tid : String)
    (hnone : ∀ u ∈ usrs, ¬(u.email = req.email ∧ u.password = req.password)) :
    (loginHandler usrs req false tid).status = 401 ∧
      (loginRequestLogs usrs req false tid).countP (isCorrelatedCredLine .warn) = 1 ∧
      (loginRequestLogs usrs req false tid).countP (isCorrelatedCredLine .error) = 0 := by
  have hfind : findCredentials usrs req.email req.password = none := by
    induction usrs with
    | nil => rfl
    | cons u rest ih =>
      have hu := hnone u (by simp)
      have hrest : ∀ v ∈ rest, ¬(v.email = req.email ∧ v.password = req.password) :=
        fun v hv => hnone v (by simp [hv])
      simp [findCredentials, hu, ih hrest]
  simp [loginRequestLogs, loginHandler, hfind, httpRequestLog,
    isCorrelatedCredLine, List.countP_cons, List.countP_nil]

/-- Witness for C4 (amended), at the seeded users table and a non-existent
email. -/
theorem login_invalid_credentials_warn_witness :
    (loginHandler initialUsers ⟨"ghost@example.com", "pw"⟩ false "tid1").status = 401 ∧
      (loginRequestLogs initialUsers ⟨"ghost@example.com", "pw"⟩ false "tid1").countP
          (isCorrelatedCredLine .warn) = 1 ∧
      (loginRequestLogs initialUsers ⟨"ghost@example.com", "pw"⟩ false "tid1").countP
          (isCorrelatedCredLine .error) = 0 :=
  login_invalid_credentials_warn initialUsers ⟨"ghost@example.com", "pw"⟩ "tid1"
    (by decide)

theorem getUser_no_password (usrs : List User) (uid : Int) (u : User)
    (hu : (getUserHandler usrs uid).2 = GetUserResponse.ok u) : u.password = "" := by
  cases heq : findUserById usrs uid with
  | none => simp [getUserHandler, heq] at hu
  | some v =>
    simp [getUserHandler, heq] at hu
    rw [← hu]

theorem findUserById_mask (uid : Int) (t1 : List User) : ∀ t2 : List User,
    differOnlyPwd uid t1 t2 = true →
    (findUserById t1 uid).map (fun u => { u with password := "" }) =
      (findUserById t2 uid).map (fun u => { u with password := "" }) := by
  induction t1 with
  | nil =>
    intro t2 h
    cases t2 with
    | nil => rfl
    | cons b tb => simp [differOnlyPwd] at h
  | cons a ta ih =>
    intro t2 h
    cases t2 with
    | nil => simp [differOnlyPwd] at h
    | cons b tb =>
      simp only [differOnlyPwd, Bool.and_eq_true, beq_iff_eq] at h
      obtain ⟨⟨⟨⟨hid, hemail⟩, hname⟩, hpw⟩, hrest⟩ := h
      by_cases hau : a.id = uid
      · have hbu : b.id = uid := hid.symm.trans hau
        simp [findUserById, hau, hbu, hid, hemail, hname]
      · have hbu : ¬b.id = uid := by rw [← hid]; exact hau
        simp only [findUserById, if_neg hau, if_neg hbu]
        exact ih tb hrest

/-- C10: the get-user response never contains the stored password and is
independent of it: for any two user tables that differ only in the password
of the requested user id, `getUserHandler` returns identical responses, and
any returned user record has an empty password field. -/
theorem getUser_password_noninterference (t1 t2 : List User) (uid : Int)
    (h : differOnlyPwd uid t1 t2 = true) :
    getUserHandler t1 uid = getUserHandler t2 uid ∧
      ∀ u, (getUserHandler t1 uid).2 = GetUserResponse.ok u → u.password = "" := by
  refine ⟨?_, fun u hu => getUser_no_password t1 uid u hu⟩
  have hmap := findUserById_mask uid t1 t2 h
  cases heq1 : findUserById t1 uid with
  | none =>
    cases heq2 : findUserById t2 uid with
    | none => simp [getUserHandler, heq1, heq2]
    | some b => rw [heq1, heq2] at hmap; simp at hmap
  | some a =>
    cases heq2 : findUserById t2 uid with
    | none => rw [heq1, heq2] at hmap; simp at hmap
    | some b =>
      rw [heq1, heq2] at hmap
      simp at hmap
      simp [getUserHandler, heq1, heq2, hmap]

/-- Witness for C10: the seeded table and the same table with user 1's
password changed produce identical get-user responses for user 1. -/
theorem getUser_password_noninterference_witness :
    getUserHandler initialUsers 1 =
        getUserHandler
          [ ⟨1, "john@example.com", "John Doe", "hunter2"⟩
          , ⟨2, "jane@example.com", "Jane Smith", "password123"⟩
          , ⟨3, "alice@example.com", "Alice Johnson", "password123"⟩ ] 1 ∧
      ∀ u, (getUserHandler initialUsers 1).2 = GetUserResponse.ok u →
        u.password = "" :=
  getUser_password_noninterference initialUsers
    [ ⟨1, "john@example.com", "John Doe", "hunter2"⟩
    , ⟨2, "jane@example.com", "Jane Smith", "password123"⟩
    , ⟨3, "alice@example.com", "Alice Johnson", "password123"⟩ ] 1 (by decide)

theorem priceOf_reserve (q pid pid2 : Int) (ps : List Product) :
    priceOf (reserveInventoryHandler q pid ps).2 pid2 = priceOf ps pid2 := by
  induction ps with
  | nil => rfl
  | cons p rest ih =>
    by_cases hid : p.id = pid
    · by_cases hq : p.stock < q
      · simp [reserveInventoryHandler, hid, hq]
      · by_cases hpp : pid = pid2
        · simp [priceOf, reserveInventoryHandler, findProduct, hid, hq, hpp]
        · simp [priceOf, reserveInventoryHandler, findProduct, hid, hq, hpp]
    · simp only [reserveInventoryHandler, if_neg hid]
      by_cases hid2 : p.id = pid2
      · simp [priceOf, findProduct, hid2]
      · simpa [priceOf, findProduct, hid2] using ih

theorem cartTotal_reserve (q pid : Int) (ps : List Product) (cart : List CartItem) :
    cartTotal (reserveInventoryHandler q pid ps).2 cart = cartTotal ps cart := by
  induction cart with
  | nil => rfl
  | cons it rest ih => simp [cartTotal, priceOf_reserve, ih]

theorem orderItemsLoop_ok_total (ctr : Int) (cart : List CartItem) :
    ∀ (ps : List Product) (acc : List OrderItem) (total : Int)
      (calls calls' : List OutboundCall) (ps' : List Product)
      (items' : List OrderItem) (total' : Int),
      orderItemsLoop ctr acc total calls ps cart = (calls', ps', .ok items' total') →
      total' = total + cartTotal ps cart := by
  induction cart with
  | nil =>
    intro ps acc total calls calls' ps' items' total' h
    simp [orderItemsLoop] at h
    simp [cartTotal, ← h.2.2.2]
  | cons it rest ih =>
    intro ps acc total calls calls' ps' items' total' h
    simp only [orderItemsLoop] at h
    cases hfind : findProduct ps it.productId with
    | none => simp [hfind] at h
    | some prod =>
      simp only [hfind] at h
      split at h
      · have htot := ih _ _ _ _ _ _ _ _ h
        rw [cartTotal_reserve] at htot
        have hprice : priceOf ps it.productId = prod.price := by
          simp [priceOf, hfind]
        simp only [cartTotal, hprice]
        rw [htot]
        ring
      · simp at h

theorem orderItemsLoop_calls_le (ctr : Int) (cart : List CartItem) :
    ∀ (ps : List Product) (acc : List OrderItem) (total : Int)
      (calls : List OutboundCall),
      (orderItemsLoop ctr acc total calls ps cart).1.countP isLookup ≤
          calls.countP isLookup + cart.length ∧
        (orderItemsLoop ctr acc total calls ps cart).1.countP isReserve ≤
          calls.countP isReserve + cart.length := by
  induction cart with
  | nil =>
    intro ps acc total calls
    simp [orderItemsLoop]
  | cons it rest ih =>
    intro ps acc total calls
    simp only [orderItemsLoop]
    cases hfind : findProduct ps it.productId with
    | none =>
      simp [List.countP_append, List.countP_cons, isLookup, isReserve]
    | some prod =>
      simp only
      split
      · constructor
        · refine le_trans (ih _ _ _ _).1 ?_
          simp [List.countP_append, List.countP_cons, isLookup, isReserve]
          omega
        · refine le_trans (ih _ _ _ _).2 ?_
          simp [List.countP_append, List.countP_cons, isLookup, isReserve]
          omega
      · simp [List.countP_append, List.countP_cons, isLookup, isReserve]

theorem orderItemsLoop_ok_counts (ctr : Int) (cart : List CartItem) :
    ∀ (ps : List Product) (acc : List OrderItem) (total : Int)
      (calls calls' : List OutboundCall) (ps' : List Product)
      (items' : List OrderItem) (total' : Int),
      orderItemsLoop ctr acc total calls ps cart = (calls', ps', .ok items' total') →
      calls'.countP isLookup = calls.countP isLookup + cart.length ∧
        calls'.countP isReserve = calls.countP isReserve + cart.length := by
  induction cart with
  | nil =>
    intro ps acc total calls calls' ps' items' total' h
    simp [orderItemsLoop] at h
    simp [← h.1]
  | cons it rest ih =>
    intro ps acc total calls calls' ps' items' total' h
    simp only [orderItemsLoop] at h
    cases hfind : findProduct ps it.productId with
    | none => simp [hfind] at h
    | some prod =>
      simp only [hfind] at h
      split at h
      · have hc := ih _ _ _ _ _ _ _ _ h
        simp [List.countP_append, List.countP_cons, isLookup, isReserve] at hc
        simp [List.length_cons]
        omega
      · simp at h

theorem orderItemsLoop_no_release (ctr : Int) (cart : List CartItem) :
    ∀ (ps : List Product) (acc : List OrderItem) (total : Int)
      (calls : List OutboundCall),
      (orderItemsLoop ctr acc total calls ps cart).1.countP isRelease =
        calls.countP isRelease := by
  induction cart with
  | nil =>
    intro ps acc total calls
    simp [orderItemsLoop]
  | cons it rest ih =>
    intro ps acc total calls
    simp only [orderItemsLoop]
    cases hfind : findProduct ps it.productId with
    | none => simp [List.countP_append, List.countP_cons, isRelease]
    | some prod =>
      simp only
      split
      · rw [ih]
        simp [List.countP_append, List.countP_cons, isRelease]
      · simp [List.countP_append, List.countP_cons, isRelease]

theorem replayCalls_append (ps : List Product) (a b : List OutboundCall) :
    replayCalls ps (a ++ b) = replayCalls (replayCalls ps a) b := by
  induction a generalizing ps with
  | nil => rfl
  | cons c rest ih => cases c <;> simp [replayCalls, ih]

theorem orderItemsLoop_replay (ctr : Int) (cart : List CartItem) :
    ∀ (ps₀ ps : List Product) (acc : List OrderItem) (total : Int)
      (calls : List OutboundCall), ps = replayCalls ps₀ calls →
      (orderItemsLoop ctr acc total calls ps cart).2.1 =
        replayCalls ps₀ (orderItemsLoop ctr acc total calls ps cart).1 := by
  induction cart with
  | nil =>
    intro ps₀ ps acc total calls h
    simpa [orderItemsLoop] using h
  | cons it rest ih =>
    intro ps₀ ps acc total calls h
    simp only [orderItemsLoop]
    cases hfind : findProduct ps it.productId with
    | none => simp [replayCalls_append, replayCalls, ← h]
    | some prod =>
      simp only
      split
      · exact ih ps₀ _ _ _ _ (by simp [replayCalls_append, replayCalls, ← h])
      · simp [replayCalls_append, replayCalls, ← h]

theorem orderItemsLoop_fail_counts (ctr : Int) (cart : List CartItem) :
    ∀ (ps : List Product) (acc : List OrderItem) (total : Int)
      (calls calls' : List OutboundCall) (ps' : List Product) (pid : Int),
      orderItemsLoop ctr acc total calls ps cart = (calls', ps', .reserveFailed pid) →
      ∃ k, k < cart.length ∧
        calls'.countP isLookup = calls.countP isLookup + (k + 1) ∧
        calls'.countP isReserve = calls.countP isReserve + (k + 1) := by
  induction cart with
  | nil =>
    intro ps acc total calls calls' ps' pid h
    simp [orderItemsLoop] at h
  | cons it rest ih =>
    intro ps acc total calls calls' ps' pid h
    simp only [orderItemsLoop] at h
    cases hfind : findProduct ps it.productId with
    | none => simp [hfind] at h
    | some prod =>
      simp only [hfind] at h
      split at h
      · obtain ⟨k, hk, hl, hr⟩ := ih _ _ _ _ _ _ _ h
        refine ⟨k + 1, by simpa using Nat.succ_lt_succ hk, ?_, ?_⟩
        · rw [hl]
          simp [List.countP_append, List.countP_cons, isLookup, isReserve]
          omega
        · rw [hr]
          simp [List.countP_append, List.countP_cons, isLookup, isReserve]
          omega
      · simp only [Prod.mk.injEq] at h
        obtain ⟨hc, -⟩ := h
        refine ⟨0, by simp, ?_, ?_⟩
        · rw [← hc]
          simp [List.countP_append, List.countP_cons, isLookup, isReserve]
        · rw [← hc]
          simp [List.countP_append, List.countP_cons, isLookup, isReserve]

/-- C1 (amended): for every create-order request past user validation, the
handler performs at most N catalog price lookups and at most N inventory
reservation attempts (N = number of items), performs exactly N of each when
the order is created (201), and whenever the branch taken is a failed
reservation it responds HTTP 409, appends no order to the orders table, and
has issued exactly k + 1 price lookups and k + 1 reservation attempts for
some k < N — one lookup per item up to and including the first failing item. -/
theorem createOrder_calls_bounded (userValid : Bool) (req : CreateOrderRequest)
    (ps : List Product) (os : List Order) (ctr : Int) :
    (createOrderHandler userValid req ps os ctr).calls.countP isLookup ≤
        req.items.length ∧
      (createOrderHandler userValid req ps os ctr).calls.countP isReserve ≤
        req.items.length ∧
      ((createOrderHandler userValid req ps os ctr).status = 201 →
        (createOrderHandler userValid req ps os ctr).calls.countP isLookup =
            req.items.length ∧
          (createOrderHandler userValid req ps os ctr).calls.countP isReserve =
            req.items.length) ∧
      ∀ pid, (createOrderHandler userValid req ps os ctr).outcome =
          CreateOutcome.reserveFailed pid →
        (createOrderHandler userValid req ps os ctr).status = 409 ∧
          (createOrderHandler userValid req ps os ctr).orders = os ∧
          ∃ k, k < req.items.length ∧
            (createOrderHandler userValid req ps os ctr).calls.countP isLookup =
                k + 1 ∧
              (createOrderHandler userValid req ps os ctr).calls.countP isReserve =
                k + 1 := by
  cases userValid with
  | false => simp [createOrderHandler]
  | true =>
    have hle := orderItemsLoop_calls_le ctr req.items ps [] 0 []
    rcases hloop : orderItemsLoop ctr [] 0 [] ps req.items with ⟨calls', ps', out⟩
    rw [hloop] at hle
    simp only [List.countP_nil, Nat.zero_add] at hle
    cases out with
    | ok items total =>
      have hexact := orderItemsLoop_ok_counts ctr req.items ps [] 0 [] calls' ps'
        items total hloop
      simp only [List.countP_nil, Nat.zero_add] at hexact
      simp [createOrderHandler, hloop, hle.1, hle.2, hexact.1, hexact.2]
    | productNotFound pid0 =>
      simp [createOrderHandler, hloop, hle.1, hle.2]
    | reserveFailed pid0 =>
      obtain ⟨k, hk, hl, hr⟩ := orderItemsLoop_fail_counts ctr req.items ps [] 0 []
        calls' ps' pid0 hloop
      simp only [List.countP_nil, Nat.zero_add] at hl hr
      refine ⟨?_, ?_, ?_, ?_⟩
      · simpa [createOrderHandler, hloop] using hle.1
      · simpa [createOrderHandler, hloop] using hle.2
      · intro h201
        simp [createOrderHandler, hloop] at h201
      · intro pid hpid
        refine ⟨by simp [createOrderHandler, hloop],
          by simp [createOrderHandler, hloop], k, hk, ?_, ?_⟩
        · simpa [createOrderHandler, hloop] using hl
        · simpa [createOrderHandler, hloop] using hr

/-- Witness for C1 (amended): two items where the second reservation fails
(product 7 has stock 5, 6 requested): the bounds hold, the response is 409,
no order is appended, and exactly k + 1 = 2 lookups and 2 reservation
attempts were issued for k = 1 < N = 2. -/
theorem createOrder_calls_bounded_witness :
    (createOrderHandler true ⟨1, [⟨1, 2⟩, ⟨7, 6⟩]⟩ initialProducts [] 1).calls.countP
        isLookup ≤ 2 ∧
      (createOrderHandler true ⟨1, [⟨1, 2⟩, ⟨7, 6⟩]⟩ initialProducts [] 1).status = 409 ∧
      (createOrderHandler true ⟨1, [⟨1, 2⟩, ⟨7, 6⟩]⟩ initialProducts [] 1).orders = [] ∧
      ∃ k, k < 2 ∧
        (createOrderHandler true ⟨1, [⟨1, 2⟩, ⟨7, 6⟩]⟩ initialProducts [] 1).calls.countP
            isLookup = k + 1 ∧
          (createOrderHandler true ⟨1, [⟨1, 2⟩, ⟨7, 6⟩]⟩ initialProducts [] 1).calls.countP
            isReserve = k + 1 :=
  ⟨(createOrder_calls_bounded true ⟨1, [⟨1, 2⟩, ⟨7, 6⟩]⟩ initialProducts [] 1).1,
    (createOrder_calls_bounded true ⟨1, [⟨1, 2⟩, ⟨7, 6⟩]⟩ initialProducts [] 1).2.2.2 7
      (by decide)⟩

/-- Counterexample for C1 as stated: with N = 2 items, when the reservation
for the FIRST item fails (product 7: stock 5, 6 requested) the handler has
performed only 1 catalog price lookup, not exactly N = 2. -/
theorem createOrder_lookup_count_counterexample :
    (createOrderHandler true ⟨1, [⟨7, 6⟩, ⟨1, 1⟩]⟩ initialProducts [] 1).status = 409 ∧
      (createOrderHandler true ⟨1, [⟨7, 6⟩, ⟨1, 1⟩]⟩ initialProducts [] 1).calls.countP
          isLookup = 1 ∧
      ([(⟨7, 6⟩ : CartItem), ⟨1, 1⟩] : List CartItem).length = 2 := by
  decide

/-- C2: whenever a create-order request responds 201, exactly one order is
appended, with status `"pending"` and total equal to
`Σ (catalog price × requested quantity)` over the request's items
(`cartTotal` of the products table the request started from). -/
theorem createOrder_success_total (userValid : Bool) (req : CreateOrderRequest)
    (ps : List Product) (os : List Order) (ctr : Int)
    (h : (createOrderHandler userValid req ps os ctr).status = 201) :
    ∃ o : Order, (createOrderHandler userValid req ps os ctr).orders = os ++ [o] ∧
      o.status = "pending" ∧ o.total = cartTotal ps req.items ∧
      o.id = ctr ∧ o.userId = req.userId := by
  cases userValid with
  | false => simp [createOrderHandler] at h
  | true =>
    rcases hloop : orderItemsLoop ctr [] 0 [] ps req.items with ⟨calls', ps', out⟩
    cases out with
    | ok items total =>
      have htot := orderItemsLoop_ok_total ctr req.items ps [] 0 [] calls' ps'
        items total hloop
      refine ⟨⟨ctr, req.userId, items, "pending", total, "", ""⟩, ?_, rfl, ?_, rfl, rfl⟩
      · simp [createOrderHandler, hloop]
      · simpa using htot
    | productNotFound pid0 => simp [createOrderHandler, hloop] at h
    | reserveFailed pid0 => simp [createOrderHandler, hloop] at h

/-- Witness for C2: user valid, items {product 1 × 2, product 3 × 1} against
the seeded table (ample stock): 201 with one appended pending order whose
total is 2·1299.99 + 1·159.99 dollars (in cents). -/
theorem createOrder_success_total_witness :
    ∃ o : Order,
      (createOrderHandler true ⟨1, [⟨1, 2⟩, ⟨3, 1⟩]⟩ initialProducts [] 1).orders =
          [] ++ [o] ∧
        o.status = "pending" ∧
        o.total = cartTotal initialProducts [⟨1, 2⟩, ⟨3, 1⟩] ∧
        o.id = 1 ∧ o.userId = 1 :=
  createOrder_success_total true ⟨1, [⟨1, 2⟩, ⟨3, 1⟩]⟩ initialProducts [] 1 (by decide)

/-- C5: whenever the branch taken by a create-order request is a failed
reservation (some item's reservation failed after the earlier items were
reserved), the creation fails with 409, the orders table is unchanged, the
handler issues no release-inventory (compensation) call, and the products
table is exactly the replay of the reservations the handler performed — the
stock already decremented for the earlier items stays decremented. -/
theorem createOrder_reserveFailed_no_compensation (userValid : Bool)
    (req : CreateOrderRequest) (ps : List Product) (os : List Order) (ctr : Int)
    (pid : Int)
    (h : (createOrderHandler userValid req ps os ctr).outcome =
      CreateOutcome.reserveFailed pid) :
    (createOrderHandler userValid req ps os ctr).status = 409 ∧
      (createOrderHandler userValid req ps os ctr).orders = os ∧
      (createOrderHandler userValid req ps os ctr).calls.countP isRelease = 0 ∧
      (createOrderHandler userValid req ps os ctr).products =
        replayCalls ps (createOrderHandler userValid req ps os ctr).calls := by
  cases userValid with
  | false => simp [createOrderHandler] at h
  | true =>
    have hrel := orderItemsLoop_no_release ctr req.items ps [] 0 []
    have hrep := orderItemsLoop_replay ctr req.items ps ps [] 0 [] rfl
    rcases hloop : orderItemsLoop ctr [] 0 [] ps req.items with ⟨calls', ps', out⟩
    rw [hloop] at hrel hrep
    simp only [List.countP_nil] at hrel
    cases out with
    | ok items total => simp [createOrderHandler, hloop] at h
    | productNotFound pid0 => simp [createOrderHandler, hloop] at h
    | reserveFailed pid0 =>
      simp [createOrderHandler, hloop, hrel]
      simpa using hrep

/-- Witness for C5: items {product 1 × 2, product 7 × 6} — product 1's
reservation succeeds (15 → 13), product 7's fails (stock 5 < 6): 409, no
order, no release call, and product 1's stock remains 13 while product 7's
remains 5. -/
theorem createOrder_reserveFailed_witness :
    ((createOrderHandler true ⟨1, [⟨1, 2⟩, ⟨7, 6⟩]⟩ initialProducts [] 1).status = 409 ∧
      (createOrderHandler true ⟨1, [⟨1, 2⟩, ⟨7, 6⟩]⟩ initialProducts [] 1).orders = [] ∧
      (createOrderHandler true ⟨1, [⟨1, 2⟩, ⟨7, 6⟩]⟩ initialProducts [] 1).calls.countP
          isRelease = 0 ∧
      (createOrderHandler true ⟨1, [⟨1, 2⟩, ⟨7, 6⟩]⟩ initialProducts [] 1).products =
        replayCalls initialProducts
          (createOrderHandler true ⟨1, [⟨1, 2⟩, ⟨7, 6⟩]⟩ initialProducts [] 1).calls) ∧
      (findProduct (createOrderHandler true ⟨1, [⟨1, 2⟩, ⟨7, 6⟩]⟩ initialProducts
          [] 1).products 1).map Product.stock = some 13 ∧
      (findProduct (createOrderHandler true ⟨1, [⟨1, 2⟩, ⟨7, 6⟩]⟩ initialProducts
          [] 1).products 7).map Product.stock = some 5 :=
  ⟨createOrder_reserveFailed_no_compensation true ⟨1, [⟨1, 2⟩, ⟨7, 6⟩]⟩
      initialProducts [] 1 7 (by decide),
    by decide, by decide⟩

/-- Counterexample for C6 as stated: not every span-start site is closed by
the structurally-enforced (deferred, guaranteed-release) pattern — the
workload generator's scenario-loop root spans end with a plain tail call. -/
theorem span_sites_structural_counterexample :
    (spanSites.all fun s => (s.pathsSkippingEnd == 0) && (s.pathsEndingTwice == 0)
        && (s.mode == EndMode.deferred)) = false := by
  decide

/-- C6 (amended): at every span-start site, `End` runs exactly once on every
exit path (no path skips it and none runs it twice); this is structurally
enforced via `defer` at every handler and outbound-helper site, while the
seven scenario-loop root spans are ended by an explicit tail call that
relies on the loop body having a single exit. -/
theorem span_sites_exactly_once :
    (spanSites.all fun s =>
        (s.pathsSkippingEnd == 0) && (s.pathsEndingTwice == 0)) = true ∧
      (spanSites.all fun s =>
        (s.kind == SiteKind.scenarioLoop) || (s.mode == EndMode.deferred)) = true ∧
      (spanSites.all fun s =>
        !(s.kind == SiteKind.scenarioLoop) || (s.mode == EndMode.explicitTail)) = true ∧
      (spanSites.any fun s => s.kind == SiteKind.scenarioLoop) = true := by
  decide

theorem waitForOne_spec (health : Nat → Bool) (svc : Nat) :
    ∀ (fuel attempt : Nat) (l : List GenEvent),
      waitForOne health svc attempt fuel = some l →
      GenEvent.healthPoll svc true ∈ l ∧
        ∀ e ∈ l, ∃ b, e = GenEvent.healthPoll svc b := by
  intro fuel
  induction fuel with
  | zero => intro attempt l h; simp [waitForOne] at h
  | succ n ih =>
    intro attempt l h
    simp only [waitForOne] at h
    split at h
    · simp only [Option.some.injEq] at h
      subst h
      simp
    · cases hrec : waitForOne health svc (attempt + 1) n with
      | none => rw [hrec] at h; simp at h
      | some l' =>
        rw [hrec] at h
        simp only [Option.map_some', Option.some.injEq] at h
        subst h
        obtain ⟨hmem, hall⟩ := ih (attempt + 1) l' hrec
        refine ⟨List.mem_cons_of_mem _ hmem, ?_⟩
        intro e he
        rcases List.mem_cons.mp he with he | he
        · exact ⟨false, he⟩
        · exact hall e he

/-- C7: whenever the workload generator's startup completes (its trace is
`some tr`), the trace is a prefix of pure health polls — containing a
successful (HTTP 200) poll of each of the three Service Nodes — followed by
the scenario traffic: no scenario request is ever emitted before all three
health checks have succeeded. -/
theorem generator_health_before_traffic (health : Nat → Nat → Bool) (fuel : Nat)
    (traffic : List GenEvent) (tr : List GenEvent)
    (h : generatorMain health fuel traffic = some tr) :
    ∃ pre : List GenEvent, tr = pre ++ traffic ∧
      GenEvent.healthPoll 0 true ∈ pre ∧
      GenEvent.healthPoll 1 true ∈ pre ∧
      GenEvent.healthPoll 2 true ∈ pre ∧
      ∀ e ∈ pre, ∃ s b, e = GenEvent.healthPoll s b := by
  unfold generatorMain waitForServices at h
  cases h0 : waitForOne (health 0) 0 0 fuel with
  | none => rw [h0] at h; simp at h
  | some e0 =>
    cases h1 : waitForOne (health 1) 1 0 fuel with
    | none => rw [h0, h1] at h; simp at h
    | some e1 =>
      cases h2 : waitForOne (health 2) 2 0 fuel with
      | none => rw [h0, h1, h2] at h; simp at h
      | some e2 =>
        rw [h0, h1, h2] at h
        simp at h
        obtain ⟨m0, a0⟩ := waitForOne_spec (health 0) 0 fuel 0 e0 h0
        obtain ⟨m1, a1⟩ := waitForOne_spec (health 1) 1 fuel 0 e1 h1
        obtain ⟨m2, a2⟩ := waitForOne_spec (health 2) 2 fuel 0 e2 h2
        refine ⟨e0 ++ e1 ++ e2, by rw [← h]; simp, ?_, ?_, ?_, ?_⟩
        · simp [m0]
        · simp [m1]
        · simp [m2]
        · intro e he
          rcases List.mem_append.mp he with he | he
          · rcases List.mem_append.mp he with he | he
            · obtain ⟨b, hb⟩ := a0 e he; exact ⟨0, b, hb⟩
            · obtain ⟨b, hb⟩ := a1 e he; exact ⟨1, b, hb⟩
          · obtain ⟨b, hb⟩ := a2 e he; exact ⟨2, b, hb⟩

/-- Witness for C7: with all services immediately healthy and a single login
scenario request, the trace decomposes as required. -/
theorem generator_health_before_traffic_witness :
    ∃ pre : List GenEvent,
      [GenEvent.healthPoll 0 true, GenEvent.healthPoll 1 true,
          GenEvent.healthPoll 2 true, GenEvent.scenarioReq 0 "user_workflow"] =
        pre ++ [GenEvent.scenarioReq 0 "user_workflow"] ∧
      GenEvent.healthPoll 0 true ∈ pre ∧
      GenEvent.healthPoll 1 true ∈ pre ∧
      GenEvent.healthPoll 2 true ∈ pre ∧
      ∀ e ∈ pre, ∃ s b, e = GenEvent.healthPoll s b :=
  generator_health_before_traffic (fun _ _ => true) 1
    [GenEvent.scenarioReq 0 "user_workflow"]
    [GenEvent.healthPoll 0 true, GenEvent.healthPoll 1 true,
      GenEvent.healthPoll 2 true, GenEvent.scenarioReq 0 "user_workflow"]
    (by decide)

/-- C8: the code contradicts the claimed lock discipline — every one of the
nine domain-table mutation sites writes its global table with no lock held
(the repository declares no mutex at all), and the site list is non-empty. -/
theorem mutation_sites_unguarded :
    (mutationSites.all fun s => s.lockHeld == false) = true ∧
      mutationSites ≠ [] := by
  decide
